import Mathlib

/-!
Shallow embedding of `src/DrawerPopup.tsx` (rc-drawer's DrawerPopup component).

The component is a React function component; its behaviour relevant to the
verified claims decomposes into pure pieces:

* the `pushDistance` resolution chain (source lines 156-167);
* the `onPanelKeyDown` keyboard handler (lines 113-140);
* the `wrapperStyle` push transform (lines 244-261);
* the `zIndexStyle` computation (lines 209-212) and its use on the mask and
  the panel wrapper styles;
* the render child order (lines 309-343);
* the React effects (lines 184-206) and the `onVisibleChanged` callback
  (lines 277-282), embedded as a step function over an event trace that
  records the calls the instance makes on its collaborators (ancestor
  context `push`/`pull`, `scrollLocker.lock`/`unLock`, `afterOpenChange`).

JavaScript values that can be a number or a string (the `distance` field of
`PushConfig` is typed `number | string`) are embedded as `JsVal`.  Nullish
(`undefined`/absent) is embedded as `Option`; the `??` operator becomes
`Option.getD`.  Calls through optional collaborators (`?.`) are recorded as
emitted calls: an unset collaborator simply ignores them, which the embedding
reflects by keeping the call list abstract.
-/

namespace Drawer

/-- A JavaScript `number | string` value, as allowed for
`PushConfig.distance` (source lines 21-23). -/
inductive JsVal where
  | num (n : Int)
  | str (s : String)
deriving DecidableEq, Repr

/-- The `push` prop: absent (`undefined`), a boolean, or a config object
whose `distance` field may itself be absent (source lines 21-29). -/
inductive PushProp where
  | notSet
  | pushBool (b : Bool)
  | pushConf (distance : Option JsVal)
deriving DecidableEq, Repr

/-- The `distance` field of the `pushConfig` local computed at source lines
156-165: `push === false` yields `{distance: 0}`, `push === true` yields
`{}`, otherwise `push || {}`. -/
def pushConfigDistance : PushProp → Option JsVal
  | .pushBool false => some (.num 0)
  | .pushBool true => none
  | .pushConf d => d
  | .notSet => none

/-- Source line 166-167:
`pushConfig?.distance ?? parentContext?.pushDistance ?? 180`.
`parent` is `none` when there is no ancestor drawer context. -/
def pushDistance (push : PushProp) (parent : Option JsVal) : JsVal :=
  (pushConfigDistance push).getD (parent.getD (.num 180))

/-- Placement of the drawer (source line 19). -/
inductive Placement where
  | left
  | right
  | top
  | bottom
deriving DecidableEq, Repr

/-- Who currently holds DOM focus, as compared against the sentinel refs in
the key handler (source lines 120-126): the start sentinel, the end
sentinel, or any other element. -/
inductive ActiveEl where
  | sentinelStart
  | sentinelEnd
  | other
deriving DecidableEq, Repr

/-- An observable action performed by `onPanelKeyDown`: focusing a sentinel
(with its `preventScroll` flag) or invoking `onClose` with the originating
event (events are tracked by an identifier). -/
inductive HCall where
  | focusStart (preventScroll : Bool)
  | focusEnd (preventScroll : Bool)
  | closeCall (ev : Nat)
deriving DecidableEq, Repr

/-- `KeyCode.TAB` from rc-util. -/
def keyCodeTAB : Nat := 9

/-- `KeyCode.ESC` from rc-util. -/
def keyCodeESC : Nat := 27

/-- The `onPanelKeyDown` handler (source lines 113-140) as the list of
collaborator calls it performs.  `keyboard` is the `keyboard` prop,
`hasOnClose` whether the `onClose` callback is set, `ev` identifies the
originating keyboard event.  The source's sentinel `focus` calls both pass
`{ preventScroll: true }`. -/
def onPanelKeyDown (keyCode : Nat) (shiftKey : Bool) (active : ActiveEl)
    (keyboard : Bool) (hasOnClose : Bool) (ev : Nat) : List HCall :=
  if keyCode = keyCodeTAB then
    if shiftKey = false ∧ active = .sentinelEnd then
      [.focusStart true]
    else if shiftKey = true ∧ active = .sentinelStart then
      [.focusEnd true]
    else
      []
  else if keyCode = keyCodeESC then
    if hasOnClose ∧ keyboard then [.closeCall ev] else []
  else
    []

/-- The push transform put on `wrapperStyle` (source lines 244-261), for a
numeric push distance.  The guard is the JS truthiness test
`pushed && pushDistance` (a number is truthy iff nonzero); the `switch` on
`placement` has cases `top`, `bottom`, `left` and a `default` branch that
covers `right` and an unset placement, hence the `Option Placement`
argument. -/
def wrapperTransform (pushed : Bool) (pd : Int) (placement : Option Placement) :
    Option String :=
  if pushed = true ∧ pd ≠ 0 then
    some (match placement with
      | some .top => "translateY(" ++ toString pd ++ "px)"
      | some .bottom => "translateY(" ++ toString (-pd) ++ "px)"
      | some .left => "translateX(" ++ toString pd ++ "px)"
      | _ => "translateX(" ++ toString (-pd) ++ "px)")
  else
    none

/-- `zIndexStyle` (source lines 209-212): the style object gets a `zIndex`
entry only when the `zIndex` prop is truthy (`if (zIndex)`), so an absent
prop and a prop equal to `0` both leave the style empty. -/
def zIndexStyle (zIndex : Option Int) : Option Int :=
  match zIndex with
  | some z => if z ≠ 0 then some z else none
  | none => none

/-- The `zIndex` entry of the mask's style (source lines 228-232): the
spread `...zIndexStyle` comes last, so it is exactly `zIndexStyle`. -/
def maskZIndex (zIndex : Option Int) : Option Int :=
  zIndexStyle zIndex

/-- The `zIndex` entry of the panel wrapper's style (source lines 266-270):
again the final spread is `...zIndexStyle`. -/
def wrapperZIndex (zIndex : Option Int) : Option Int :=
  zIndexStyle zIndex

/-- The children of the root element, in document order. -/
inductive ChildNode where
  | maskN
  | sentinelStartN
  | panelWrapperN
  | sentinelEndN
deriving DecidableEq, Repr

/-- The render's child order (source lines 325-340): `maskNode` — which is
`mask && <CSSMotion .../>`, so nothing when `mask` is false — then the start
sentinel, then the panel wrapper (`panelNode`), then the end sentinel. -/
def renderChildren (mask : Bool) : List ChildNode :=
  (if mask then [ChildNode.maskN] else [])
    ++ [.sentinelStartN, .panelWrapperN, .sentinelEndN]

/-- A call made by the instance on one of its collaborators: the shared
scroll locker (`lock`/`unLock`), the ancestor drawer context
(`push`/`pull`), or the `afterOpenChange` callback. -/
inductive Call where
  | lock
  | unlock
  | parentPush
  | parentPull
  | afterOpenChange (v : Bool)
deriving DecidableEq, Repr

/-- The previous render's effect dependencies, as React remembers them to
decide whether an effect re-runs; `none` before the first render. -/
structure EffState where
  prevOpen : Option Bool
  prevMask : Option Bool
deriving DecidableEq, Repr

/-- State before the first render: every effect runs on mount. -/
def initState : EffState := { prevOpen := none, prevMask := none }

/-- An event in the life of one mounted instance: a render committing the
given `open`/`mask` props (the first such event is the mount), a completion
report from the panel's CSSMotion (`onVisibleChanged`), or unmount. -/
inductive Event where
  | render (open_ mask : Bool)
  | panelVisibleChanged (v : Bool)
  | unmount
deriving DecidableEq, Repr

/-- The effect at source lines 184-190, deps `[open]`: runs on mount and
when `open` changed; body `open ? parentContext?.push?.() :
parentContext?.pull?.()`. -/
def pushPullEffect (s : EffState) (o : Bool) : List Call :=
  if s.prevOpen ≠ some o then
    (if o then [Call.parentPush] else [Call.parentPull])
  else
    []

/-- The effect at source lines 193-197, deps `[open, mask]`: runs on mount
and when `open` or `mask` changed; body
`if (open && mask) scrollLocker?.lock()`. -/
def lockEffect (s : EffState) (o m : Bool) : List Call :=
  if s.prevOpen ≠ some o ∨ s.prevMask ≠ some m then
    (if o ∧ m then [Call.lock] else [])
  else
    []

/-- One step of the instance.  A render runs the effects whose dependencies
changed, in declaration order (push/pull before lock; the auto-focus effect
at lines 144-148 only touches the panel's own focus and emits none of the
calls tracked here).  `onVisibleChanged` (lines 277-282) calls
`afterOpenChange?.(nextVisible)` and, when the visibility settled to false,
`scrollLocker?.unLock()`.  Unmount runs the cleanup of the effect at lines
200-206: `scrollLocker?.unLock(); parentContext?.pull?.()`. -/
def step (s : EffState) : Event → EffState × List Call
  | .render o m =>
      ({ prevOpen := some o, prevMask := some m },
        pushPullEffect s o ++ lockEffect s o m)
  | .panelVisibleChanged v =>
      (s, [Call.afterOpenChange v] ++ (if v then [] else [Call.unlock]))
  | .unmount => (s, [Call.unlock, Call.parentPull])

/-- All calls emitted along a trace of events, starting at `s`. -/
def runFrom (s : EffState) : List Event → List Call
  | [] => []
  | e :: es => (step s e).2 ++ runFrom (step s e).1 es

/-- All calls emitted along a trace of events from mount. -/
def runCalls (es : List Event) : List Call :=
  runFrom initState es

/-- `true` iff the call list never contains a `lock` after a `lock` with no
`unlock` in between (`locked` says a lock is currently outstanding). -/
def noDoubleLockAux : List Call → Bool → Bool
  | [], _ => true
  | .lock :: rest, locked => if locked then false else noDoubleLockAux rest true
  | .unlock :: rest, _ => noDoubleLockAux rest false
  | _ :: rest, locked => noDoubleLockAux rest locked

/-- The claimed scroll-lock discipline: this instance never calls `lock()`
twice without an intervening `unlock()` of its own. -/
def noDoubleLock (cs : List Call) : Bool :=
  noDoubleLockAux cs false

/-- `mergedContext.push` (source lines 172-174): its whole body is
`setPushed(true)`.  It returns the new value of this instance's `pushed`
state cell together with the calls it makes on the instance's *own*
ancestor context — there are none, which is what makes push notification
single-level. -/
def mergedContextPush (_pushed : Bool) : Bool × List Call :=
  (true, [])

/-- `mergedContext.pull` (source lines 175-177): body `setPushed(false)`,
no call on the instance's own ancestor context. -/
def mergedContextPull (_pushed : Bool) : Bool × List Call :=
  (false, [])

/-- The CSSMotion-facing configuration the component chooses for an
element. -/
structure MotionSetup where
  removeOnLeave : Option Bool
  leavedClassName : Option String
deriving DecidableEq, Repr

/-- The panel's CSSMotion configuration (source lines 272-285):
`removeOnLeave={false}` and
`leavedClassName={`prefixCls-content-hidden`}`. -/
def panelMotionSetup (pcls : String) : MotionSetup :=
  { removeOnLeave := some false,
    leavedClassName := some (pcls ++ "-content-hidden") }

/-- The mask's CSSMotion configuration (source line 216): DrawerPopup sets
neither `removeOnLeave` nor `leavedClassName` itself; `supplied` is
whatever `removeOnLeave` the caller's `maskMotion` spread may carry
(normally nothing). -/
def maskMotionSetup (supplied : Option Bool) : MotionSetup :=
  { removeOnLeave := supplied, leavedClassName := none }

/-- Modelled from the spec: the transition engine (rc-motion's CSSMotion)
is an external collaborator whose source is not part of this repository.
Per the spec's collaborator contract it supports "a `removeOnLeave=false`
mode (retain element, apply a 'leaved' marker class instead of removing
it)" and `forceRender` (pre-mount while hidden); by default the element is
removed when hidden.  This predicate says whether the element stays mounted
once its leave transition finished. -/
def motionMountedWhenHidden (setup : MotionSetup) (forceRender : Bool) : Bool :=
  decide (setup.removeOnLeave = some false) || forceRender

/-- C1: `pushDistance` resolves by precedence — an explicit numeric distance
in the overlay's own push config wins; otherwise the ancestor context's
`pushDistance`; otherwise the default 180.  In particular `push=false`
resolves to 0 regardless of the ancestor, `push={distance: 40}` to 40
regardless of the ancestor, `push=true` with ancestor `pushDistance=120` to
120, and no push config with no ancestor to 180. -/
theorem push_distance_resolution (p : Option JsVal) (d : Int) :
    pushDistance (.pushBool false) p = .num 0 ∧
    pushDistance (.pushConf (some (.num 40))) p = .num 40 ∧
    pushDistance (.pushBool true) (some (.num 120)) = .num 120 ∧
    pushDistance .notSet none = .num 180 ∧
    pushDistance (.pushConf (some (.num d))) p = .num d ∧
    (∀ pp : PushProp, pushConfigDistance pp = none →
      pushDistance pp p = p.getD (.num 180)) := by
  refine ⟨rfl, rfl, rfl, rfl, rfl, fun pp h => ?_⟩
  simp [pushDistance, h]

/-- Witness for C1: concrete instance with the hypothesis discharged —
`push=true` has no own distance, so the ancestor's 120 is used. -/
theorem push_distance_resolution_witness :
    pushDistance (.pushBool true) (some (.num 120)) = .num 120 :=
  (push_distance_resolution (some (.num 120)) 0).2.2.2.2.2 (.pushBool true) rfl

/-- C8 counterexample: a push config whose `distance` is the non-numeric
string `"abc"` does NOT fall back to the default 180 — the `??` chain only
falls through on nullish values, so the malformed string is used as-is. -/
theorem push_distance_string_counterexample :
    pushDistance (.pushConf (some (.str "abc"))) none = .str "abc" ∧
    pushDistance (.pushConf (some (.str "abc"))) none ≠ .num 180 := by
  exact ⟨rfl, by decide⟩

/-- C8 amended: a push configuration whose `distance` field is present but
non-numeric (a string) is used as-is for `pushDistance`; only an absent
(`undefined`) distance falls back to the ancestor's value or the default. -/
theorem push_distance_string_used (s : String) (p : Option JsVal) :
    pushDistance (.pushConf (some (.str s))) p = .str s :=
  rfl

/-- C3: on Tab inside the panel's key scope, forward-tab with focus on the
end sentinel moves focus to the start sentinel with scroll suppressed;
shift+tab with focus on the start sentinel moves focus to the end sentinel;
for any other focused element the handler makes no focus change. -/
theorem tab_focus_trap (shift : Bool) (active : ActiveEl) (kb oc : Bool)
    (ev : Nat) :
    (shift = false → active = .sentinelEnd →
      onPanelKeyDown keyCodeTAB shift active kb oc ev = [.focusStart true]) ∧
    (shift = true → active = .sentinelStart →
      onPanelKeyDown keyCodeTAB shift active kb oc ev = [.focusEnd true]) ∧
    (¬(shift = false ∧ active = .sentinelEnd) →
      ¬(shift = true ∧ active = .sentinelStart) →
      onPanelKeyDown keyCodeTAB shift active kb oc ev = []) := by
  refine ⟨fun h1 h2 => ?_, fun h1 h2 => ?_, fun h1 h2 => ?_⟩ <;>
    simp [onPanelKeyDown, keyCodeTAB, keyCodeESC, h1, h2]

/-- Witness for C3: the three cases at concrete inputs. -/
theorem tab_focus_trap_witness :
    onPanelKeyDown keyCodeTAB false .sentinelEnd true true 0
        = [.focusStart true] ∧
    onPanelKeyDown keyCodeTAB true .sentinelStart true true 0
        = [.focusEnd true] ∧
    onPanelKeyDown keyCodeTAB false .other true true 0 = [] :=
  ⟨(tab_focus_trap false .sentinelEnd true true 0).1 rfl rfl,
   (tab_focus_trap true .sentinelStart true true 0).2.1 rfl rfl,
   (tab_focus_trap false .other true true 0).2.2 (by decide) (by decide)⟩

/-- C4: on ESC inside the panel, with the `keyboard` prop true and `onClose`
set the close callback is invoked exactly once with the originating event;
with `keyboard` false it is invoked zero times; with `onClose` unset the
event is a no-op. -/
theorem esc_close (shift : Bool) (active : ActiveEl) (ev : Nat) :
    onPanelKeyDown keyCodeESC shift active true true ev = [.closeCall ev] ∧
    (∀ oc : Bool, onPanelKeyDown keyCodeESC shift active false oc ev = []) ∧
    (∀ kb : Bool, onPanelKeyDown keyCodeESC shift active kb false ev = []) := by
  refine ⟨?_, fun oc => ?_, fun kb => ?_⟩ <;>
    simp [onPanelKeyDown, keyCodeESC, keyCodeTAB]

/-- C2: when `open` transitions to true the instance calls the direct
ancestor context's `push()` (exactly once); when it transitions to false,
and on unmount regardless of state, it calls the ancestor's `pull()`; and
the context's `push`/`pull` closures only set this instance's own `pushed`
flag and make no call on the instance's own ancestor — so only the direct
ancestor is ever notified, never higher ancestors transitively. -/
theorem open_push_pull_propagation (s : EffState) (o m b : Bool) :
    ((s.prevOpen = some false ∧ o = true) →
      (step s (.render o m)).2.count Call.parentPush = 1) ∧
    ((s.prevOpen = some true ∧ o = false) →
      (step s (.render o m)).2.count Call.parentPull = 1) ∧
    (step s .unmount).2.count Call.parentPull = 1 ∧
    mergedContextPush b = (true, []) ∧
    mergedContextPull b = (false, []) := by
  refine ⟨fun ⟨h1, h2⟩ => ?_, fun ⟨h1, h2⟩ => ?_, rfl, rfl, rfl⟩
  · subst h2
    simp [step, pushPullEffect, lockEffect, h1]
    split <;> simp
  · subst h2
    simp [step, pushPullEffect, lockEffect, h1]

/-- Witness for C2: a closed open and a closed close transition. -/
theorem open_push_pull_propagation_witness :
    (step { prevOpen := some false, prevMask := some false }
        (.render true true)).2.count Call.parentPush = 1 ∧
    (step { prevOpen := some true, prevMask := some true }
        (.render false true)).2.count Call.parentPull = 1 :=
  ⟨(open_push_pull_propagation
      { prevOpen := some false, prevMask := some false } true true true).1
      ⟨rfl, rfl⟩,
   (open_push_pull_propagation
      { prevOpen := some true, prevMask := some true } false true true).2.1
      ⟨rfl, rfl⟩⟩

/-- C5 counterexample: along the prop sequence `open=true, mask=true` then
`mask=false` then `mask=true`, the lock effect re-runs on each dependency
change and observes `open && mask` twice — the instance calls `lock()`
twice with no intervening `unlock()` of its own. -/
theorem lock_double_counterexample :
    runCalls [.render true true, .render true false, .render true true]
        = [.parentPush, .lock, .lock] ∧
    noDoubleLock
      (runCalls [.render true true, .render true false, .render true true])
        = false := by
  exact ⟨rfl, rfl⟩

/-- C5 amended: `lock()` is called (exactly once per render) whenever an
effect run — on mount or after `open`/`mask` changed — observes
`open && mask`, so `lock()` can be invoked twice without an intervening
`unlock()` (e.g. when `mask` toggles false→true while open); `unlock()` is
called exactly when the panel finishes its leave transition and on
teardown. -/
theorem scroll_lock_discipline (s : EffState) (o m : Bool) :
    (Call.lock ∈ (step s (.render o m)).2 ↔
      (o = true ∧ m = true ∧ (s.prevOpen ≠ some o ∨ s.prevMask ≠ some m))) ∧
    (step s (.render o m)).2.count Call.lock ≤ 1 ∧
    (step s (.panelVisibleChanged false)).2
        = [.afterOpenChange false, .unlock] ∧
    (step s (.panelVisibleChanged true)).2 = [.afterOpenChange true] ∧
    (step s .unmount).2 = [.unlock, .parentPull] := by
  refine ⟨?_, ?_, rfl, rfl, rfl⟩ <;>
    simp [step, pushPullEffect, lockEffect] <;>
    cases o <;> cases m <;>
    by_cases h1 : s.prevOpen = some true <;>
    by_cases h2 : s.prevMask = some true <;>
    simp_all <;> split <;> simp_all

/-- C6: with `pushed` true and a nonzero numeric distance `d`, the wrapper
transform is `translateY(d px)` for `top`, `translateY(-d px)` for
`bottom`, `translateX(d px)` for `left`, `translateX(-d px)` for `right`;
with `pushed` false or a zero distance no push transform is applied. -/
theorem push_transform (d : Int) (p : Option Placement) (pushed : Bool) :
    (d ≠ 0 →
      wrapperTransform true d (some .top)
          = some ("translateY(" ++ toString d ++ "px)") ∧
      wrapperTransform true d (some .bottom)
          = some ("translateY(" ++ toString (-d) ++ "px)") ∧
      wrapperTransform true d (some .left)
          = some ("translateX(" ++ toString d ++ "px)") ∧
      wrapperTransform true d (some .right)
          = some ("translateX(" ++ toString (-d) ++ "px)")) ∧
    wrapperTransform false d p = none ∧
    wrapperTransform pushed 0 p = none := by
  refine ⟨fun h => ?_, ?_, ?_⟩
  · refine ⟨?_, ?_, ?_, ?_⟩ <;> simp [wrapperTransform, h]
  · simp [wrapperTransform]
  · simp [wrapperTransform]

/-- Witness for C6: the spec's own example — placement `right` with
distance 180 yields `translateX(-180px)`. -/
theorem push_transform_witness :
    (180 : Int) ≠ 0 ∧
    wrapperTransform true 180 (some .right) = some "translateX(-180px)" := by
  refine ⟨by decide, ?_⟩
  have h := ((push_transform 180 none true).1 (by decide)).2.2.2
  rw [h]
  rfl

/-- C7: the panel's motion is configured with `removeOnLeave=false` and the
leaved marker class `prefixCls-content-hidden`, so the panel element stays
mounted after its leave transition even without `forceRender`; the mask's
motion sets no `removeOnLeave`, so with the engine's default the mask is
unmounted when hidden; and when the leave transition completes
(`onVisibleChanged(false)`) the instance calls `afterOpenChange(false)` and
releases the scroll lock. -/
theorem panel_retained_on_leave (pcls : String) (s : EffState) :
    motionMountedWhenHidden (panelMotionSetup pcls) false = true ∧
    (panelMotionSetup pcls).leavedClassName
        = some (pcls ++ "-content-hidden") ∧
    motionMountedWhenHidden (maskMotionSetup none) false = false ∧
    (step s (.panelVisibleChanged false)).2
        = [.afterOpenChange false, .unlock] := by
  exact ⟨rfl, rfl, rfl, rfl⟩

/-- C9 counterexample: a configured `zIndex` of 0 is present but is not
applied to the mask or the panel wrapper, because `if (zIndex)` tests
truthiness. -/
theorem zindex_present_not_applied :
    zIndexStyle (some 0) = none ∧
    maskZIndex (some 0) ≠ some 0 ∧
    wrapperZIndex (some 0) ≠ some 0 := by
  decide

/-- C9 amended: the render places the mask (present only when `mask` is
true) first, then the start sentinel, then the panel wrapper, then the end
sentinel; and a present *nonzero* `zIndex` value is applied to both the
mask and the panel wrapper. -/
theorem render_order_zindex (z : Int) (h : z ≠ 0) :
    renderChildren true
        = [.maskN, .sentinelStartN, .panelWrapperN, .sentinelEndN] ∧
    renderChildren false = [.sentinelStartN, .panelWrapperN, .sentinelEndN] ∧
    maskZIndex (some z) = some z ∧
    wrapperZIndex (some z) = some z := by
  refine ⟨rfl, rfl, ?_, ?_⟩ <;>
    simp [maskZIndex, wrapperZIndex, zIndexStyle, h]

/-- Witness for C9: zIndex 5 is applied to both styles. -/
theorem render_order_zindex_witness :
    maskZIndex (some 5) = some 5 ∧ wrapperZIndex (some 5) = some 5 :=
  ⟨(render_order_zindex 5 (by decide)).2.2.1,
   (render_order_zindex 5 (by decide)).2.2.2⟩

/-- C10: a configured `zIndex` of exactly 0 behaves as if no `zIndex` were
supplied — neither the mask nor the panel wrapper receives a z-index
entry. -/
theorem zindex_zero_like_absent :
    zIndexStyle (some 0) = zIndexStyle none ∧
    maskZIndex (some 0) = none ∧
    wrapperZIndex (some 0) = none := by
  decide

end Drawer
